import Mathlib

/-!
Shallow embedding of the `/queue` HTTP handlers of the jimmy job-queue broker
(`src/handlers/queue.rs`). Each handler is modelled as a pure function from the
outcomes of its external calls (connection pool, Job Staging Store via the
`file` module, Queue Store via `RedisManager`) to an event trace paired with a
handler outcome. The event trace records, in program order, every external call
the handler makes, every `error!` log, every `tokio::time::sleep`, and the point
at which the pooled connection is dropped (Rust drops `conn` at scope exit, so
the release event is the last event of every path on which the pool handle was
acquired). A `.unwrap()` on an `Err` value is modelled as the `panicked`
outcome.
-/

/-- JSON values, modelling `serde_json::Value`; objects are association lists
of fields. -/
inductive Json where
  | null
  | bool (b : Bool)
  | num (n : Int)
  | str (s : String)
  | arr (elems : List Json)
  | obj (fields : List (String × Json))

/-- First-match field lookup in a JSON object's field list. -/
def lookupField : List (String × Json) → String → Option Json
  | [], _ => none
  | (k, v) :: rest, key => if k = key then some v else lookupField rest key

/-- Insert-or-replace of a field, modelling `serde_json::Map` insertion (as
performed by `Map::extend` on a map, whose field lists are duplicate-free): an
existing binding for the key is overwritten, otherwise the binding is added. -/
def objInsert : List (String × Json) → String → Json → List (String × Json)
  | [], key, v => [(key, v)]
  | (k, w) :: rest, key, v =>
      if k = key then (key, v) :: rest else (k, w) :: objInsert rest key v

/-- Error taxonomy of `OcyError` as used by the handlers: `NoSuchQueue`,
`BadRequest`, a connection error, and a catch-all for any other backend
failure. -/
inductive OcyError where
  | NoSuchQueue (q : String)
  | BadRequest (msg : String)
  | RedisConnection (msg : String)
  | Internal (msg : String)

/-- Whether an error is the `NoSuchQueue` kind. -/
def OcyError.isNoSuchQueue : OcyError → Bool
  | .NoSuchQueue _ => true
  | _ => false

/-- The job-creation request (`job::CreateRequest`): the handlers only ever
inspect and rewrite its `input` field, an optional JSON payload; every other
field is passed through opaquely. -/
structure CreateRequest where
  input : Option Json

/-- Transport-level responses the handlers build. `err e` stands for
`e.error_response()`: the error value itself, with its kind intact, is handed
to the transport layer. -/
inductive HttpResponse where
  | okJson (body : Json)
  | created (location : String) (body : Option Json)
  | noContent (reason : Option String) (location : Option String)
  | notFound (reason : Option String)
  | err (e : OcyError)

/-- Outcome of running a handler: a response, or a panic (an `unwrap` of an
`Err`). -/
inductive HandlerOutcome where
  | response (r : HttpResponse)
  | panicked

/-- Whether the outcome is an error response of any kind. -/
def HandlerOutcome.isErrorResponse : HandlerOutcome → Bool
  | .response (.err _) => true
  | _ => false

/-- Observable events of a handler execution, in program order. -/
inductive Event where
  | poolAcquire
  | storeCall (queue : String)
  | storeFetch (queue : String) (jobId : Nat)
  | stageWrite (queue : String)
  | stageRead (queue : String) (stagingId : Int)
  | commit (queue : String) (payload : CreateRequest)
  | stageDelete (queue : String) (stagingId : Int)
  | sleep (millis : Nat)
  | logError
  | connRelease

def Event.isCommit : Event → Bool
  | .commit _ _ => true
  | _ => false

def Event.isStageWrite : Event → Bool
  | .stageWrite _ => true
  | _ => false

def Event.isStageRead : Event → Bool
  | .stageRead _ _ => true
  | _ => false

def Event.isStageDelete : Event → Bool
  | .stageDelete _ _ => true
  | _ => false

def Event.isSleep : Event → Bool
  | .sleep _ => true
  | _ => false

def Event.isLogError : Event → Bool
  | .logError => true
  | _ => false

def Event.isConnRelease : Event → Bool
  | .connRelease => true
  | _ => false

/-- The payloads of the Queue Store commits in a trace, in order. -/
def committedPayloads (tr : List Event) : List CreateRequest :=
  tr.filterMap fun e =>
    match e with
    | .commit _ p => some p
    | _ => none

/-- `commitPrecededByStage staged tr` checks that every Queue Store commit in
`tr` is strictly preceded by a completed staging write (`staged` carries
whether one has already completed). -/
def commitPrecededByStage : Bool → List Event → Bool
  | _, [] => true
  | staged, e :: rest =>
    if e.isCommit then staged && commitPrecededByStage staged rest
    else commitPrecededByStage (staged || e.isStageWrite) rest

/-- `sleepOnlyAfterRelease released tr` checks that every sleep in `tr` happens
only after the pooled connection has been released (`released` carries whether
the release has already happened). -/
def sleepOnlyAfterRelease : Bool → List Event → Bool
  | _, [] => true
  | released, e :: rest =>
    match e with
    | .sleep _ => released && sleepOnlyAfterRelease released rest
    | .connRelease => sleepOnlyAfterRelease true rest
    | _ => sleepOnlyAfterRelease released rest

/-! ## Handler embeddings

Each world record holds the result of every external call the handler can
make, in the order the source makes them. -/

/-- External-call results for `create_or_update` (`PUT /queue/...`). -/
structure UpsertWorld where
  pool : Except String Unit
  upsert : Except OcyError Bool

/-- `create_or_update` (queue.rs lines 30-56): pool, then
`RedisManager::create_or_update_queue`; `Ok(true)` is 201 Created with a
Location header, `Ok(false)` is 204 with reason "Queue setting updated" and the
same Location header; a `BadRequest` error is returned without logging, any
other error is logged and returned. -/
def create_or_update (queue_name : String) (w : UpsertWorld) :
    List Event × HandlerOutcome :=
  match w.pool with
  | .error e => ([], .response (.err (.RedisConnection e)))
  | .ok _ =>
    match w.upsert with
    | .ok true =>
        ([.poolAcquire, .storeCall queue_name, .connRelease],
         .response (.created ("/queue/" ++ queue_name) none))
    | .ok false =>
        ([.poolAcquire, .storeCall queue_name, .connRelease],
         .response (.noContent (some "Queue setting updated")
           (some ("/queue/" ++ queue_name))))
    | .error (.BadRequest m) =>
        ([.poolAcquire, .storeCall queue_name, .connRelease],
         .response (.err (.BadRequest m)))
    | .error e =>
        ([.poolAcquire, .storeCall queue_name, .logError, .connRelease],
         .response (.err e))

/-- External-call results for the pure-read handlers `settings`, `size` and
`job_ids`; `α` is the value the Queue Store read returns. -/
structure ReadWorld (α : Type) where
  pool : Except String Unit
  read : Except OcyError α

/-- `settings` (queue.rs lines 76-96): `NoSuchQueue` is returned without
logging; any other error is logged and returned; the error value itself is
passed to `error_response` in both arms. -/
def settings (queue_name : String) (w : ReadWorld Json) :
    List Event × HandlerOutcome :=
  match w.pool with
  | .error e => ([], .response (.err (.RedisConnection e)))
  | .ok _ =>
    match w.read with
    | .ok summary =>
        ([.poolAcquire, .storeCall queue_name, .connRelease],
         .response (.okJson summary))
    | .error (.NoSuchQueue q) =>
        ([.poolAcquire, .storeCall queue_name, .connRelease],
         .response (.err (.NoSuchQueue q)))
    | .error e =>
        ([.poolAcquire, .storeCall queue_name, .logError, .connRelease],
         .response (.err e))

/-- `size` (queue.rs lines 98-115): same shape as `settings`, returning a
numeric size. -/
def size (queue_name : String) (w : ReadWorld Nat) :
    List Event × HandlerOutcome :=
  match w.pool with
  | .error e => ([], .response (.err (.RedisConnection e)))
  | .ok _ =>
    match w.read with
    | .ok n =>
        ([.poolAcquire, .storeCall queue_name, .connRelease],
         .response (.okJson (Json.num (Int.ofNat n))))
    | .error (.NoSuchQueue q) =>
        ([.poolAcquire, .storeCall queue_name, .connRelease],
         .response (.err (.NoSuchQueue q)))
    | .error e =>
        ([.poolAcquire, .storeCall queue_name, .logError, .connRelease],
         .response (.err e))

/-- `job_ids` (queue.rs lines 117-134): same shape as `settings`, returning the
list of job ids. -/
def job_ids (queue_name : String) (w : ReadWorld (List Nat)) :
    List Event × HandlerOutcome :=
  match w.pool with
  | .error e => ([], .response (.err (.RedisConnection e)))
  | .ok _ =>
    match w.read with
    | .ok ids =>
        ([.poolAcquire, .storeCall queue_name, .connRelease],
         .response (.okJson (Json.arr (ids.map fun i => Json.num (Int.ofNat i)))))
    | .error (.NoSuchQueue q) =>
        ([.poolAcquire, .storeCall queue_name, .connRelease],
         .response (.err (.NoSuchQueue q)))
    | .error e =>
        ([.poolAcquire, .storeCall queue_name, .logError, .connRelease],
         .response (.err e))

/-- External-call results for `create_job`. `stageWrite` is the result of
`file::write_job` (a location and the staging timestamp); `stagedGet` is the
debug-only `file::get_job` read on the success path whose result is only
logged; `stageDelete` is the result of `file::delete_job`, which the source
ignores (`let _del = ...`). -/
structure CreateJobWorld where
  pool : Except String Unit
  stageWrite : Except String (String × Int)
  commit : Except OcyError Nat
  stagedGet : Except OcyError CreateRequest
  stageDelete : Except String Unit

/-- `create_job` (queue.rs lines 136-164): acquire pool handle, then
`file::write_job(...).unwrap()` (a staging failure panics), then
`RedisManager::create_job`; on commit success the staged record is read for a
debug log and deleted with the deletion result discarded, and 201 Created with
a `/job/` Location and the job id is returned; on commit failure no staging
deletion happens and the error value is returned (`NoSuchQueue` and
`BadRequest` without logging, anything else logged). -/
def create_job (queue_name : String) (job_req : CreateRequest)
    (w : CreateJobWorld) : List Event × HandlerOutcome :=
  match w.pool with
  | .error e => ([], .response (.err (.RedisConnection e)))
  | .ok _ =>
    match w.stageWrite with
    | .error _ =>
        ([.poolAcquire, .stageWrite queue_name, .connRelease], .panicked)
    | .ok (_, stagingId) =>
      match w.commit with
      | .ok job_id =>
          ([.poolAcquire, .stageWrite queue_name, .commit queue_name job_req,
            .stageRead queue_name stagingId, .stageDelete queue_name stagingId,
            .connRelease],
           .response (.created ("/job/" ++ toString job_id)
             (some (Json.num (Int.ofNat job_id)))))
      | .error (.NoSuchQueue q) =>
          ([.poolAcquire, .stageWrite queue_name, .commit queue_name job_req,
            .connRelease],
           .response (.err (.NoSuchQueue q)))
      | .error (.BadRequest m) =>
          ([.poolAcquire, .stageWrite queue_name, .commit queue_name job_req,
            .connRelease],
           .response (.err (.BadRequest m)))
      | .error e =>
          ([.poolAcquire, .stageWrite queue_name, .commit queue_name job_req,
            .logError, .connRelease],
           .response (.err e))

/-- The key injected by the reattempt augmentation. -/
def attemptedOnKey : String := "attempted_on"

/-- The payload rewrite `reattempt_job` performs before committing (queue.rs
lines 234-238): when `input` is a JSON object, the field `attempted_on` is
inserted/overwritten with the staging timestamp from the request path;
otherwise the request is left unmodified. -/
def augmentInput (timestamp : Int) (job_req : CreateRequest) : CreateRequest :=
  match job_req.input with
  | some (Json.obj fields) =>
      { job_req with
        input := some (Json.obj (objInsert fields attemptedOnKey
          (Json.num timestamp))) }
  | _ => job_req

/-- Whether an optional JSON input is a structured object (the only shape the
reattempt augmentation acts on). -/
def inputIsObject : Option Json → Bool
  | some (Json.obj _) => true
  | _ => false

/-- External-call results for `reattempt_job`: `getJob` is the staged-record
read (`file::get_job`), `commit` the Queue Store commit, `stageDelete` the
ignored deletion result. -/
structure ReattemptWorld where
  pool : Except String Unit
  getJob : Except OcyError CreateRequest
  commit : Except OcyError Nat
  stageDelete : Except String Unit

/-- `reattempt_job` (queue.rs lines 218-258): acquire pool handle, read the
staged record; on read failure log and return the error; otherwise augment the
payload with `augmentInput` and commit it; on commit success delete the staged
record (result discarded) and return 201 Created with a `/job/` Location and
the job id; on commit failure log and return the error, keeping the staged
record. -/
def reattempt_job (queue_name : String) (timestamp : Int)
    (w : ReattemptWorld) : List Event × HandlerOutcome :=
  match w.pool with
  | .error e => ([], .response (.err (.RedisConnection e)))
  | .ok _ =>
    match w.getJob with
    | .ok job_req0 =>
      let job_req := augmentInput timestamp job_req0
      match w.commit with
      | .ok job_id =>
          ([.poolAcquire, .stageRead queue_name timestamp,
            .commit queue_name job_req, .stageDelete queue_name timestamp,
            .connRelease],
           .response (.created ("/job/" ++ toString job_id)
             (some (Json.num (Int.ofNat job_id)))))
      | .error e =>
          ([.poolAcquire, .stageRead queue_name timestamp,
            .commit queue_name job_req, .logError, .connRelease],
           .response (.err e))
    | .error e =>
        ([.poolAcquire, .stageRead queue_name timestamp, .logError,
          .connRelease],
         .response (.err e))

/-- External-call results for `next_job` and `fetch_job`: the Queue Store
retrieval result and the configured `server.next_job_delay` (in milliseconds;
`none` when unconfigured). -/
structure RetrieveWorld where
  pool : Except String Unit
  result : Except OcyError (Option Json)
  next_job_delay : Option Nat

/-- `next_job` (queue.rs lines 166-190): a found job is returned as 200; when
the store reports no job, the handler sleeps for the configured delay when one
is configured and non-zero and then responds 204 No Content, else responds 204
immediately; errors are logged and returned. The pooled connection is dropped
at scope exit, after any sleep. -/
def next_job (queue_name : String) (w : RetrieveWorld) :
    List Event × HandlerOutcome :=
  match w.pool with
  | .error e => ([], .response (.err (.RedisConnection e)))
  | .ok _ =>
    match w.result with
    | .ok (some job) =>
        ([.poolAcquire, .storeCall queue_name, .connRelease],
         .response (.okJson job))
    | .ok none =>
      match w.next_job_delay with
      | some delay =>
          if delay ≠ 0 then
            ([.poolAcquire, .storeCall queue_name, .sleep delay, .connRelease],
             .response (.noContent none none))
          else
            ([.poolAcquire, .storeCall queue_name, .connRelease],
             .response (.noContent none none))
      | none =>
          ([.poolAcquire, .storeCall queue_name, .connRelease],
           .response (.noContent none none))
    | .error e =>
        ([.poolAcquire, .storeCall queue_name, .logError, .connRelease],
         .response (.err e))

/-- `fetch_job` (queue.rs lines 192-215): identical to `next_job` except the
store lookup targets a specific job id. -/
def fetch_job (queue_name : String) (job_id : Nat) (w : RetrieveWorld) :
    List Event × HandlerOutcome :=
  match w.pool with
  | .error e => ([], .response (.err (.RedisConnection e)))
  | .ok _ =>
    match w.result with
    | .ok (some job) =>
        ([.poolAcquire, .storeFetch queue_name job_id, .connRelease],
         .response (.okJson job))
    | .ok none =>
      match w.next_job_delay with
      | some delay =>
          if delay ≠ 0 then
            ([.poolAcquire, .storeFetch queue_name job_id, .sleep delay,
              .connRelease],
             .response (.noContent none none))
          else
            ([.poolAcquire, .storeFetch queue_name job_id, .connRelease],
             .response (.noContent none none))
      | none =>
          ([.poolAcquire, .storeFetch queue_name job_id, .connRelease],
           .response (.noContent none none))
    | .error e =>
        ([.poolAcquire, .storeFetch queue_name job_id, .logError, .connRelease],
         .response (.err e))

/-! ## Lookup lemmas for the object-field insertion -/

/-- Looking up the inserted key finds the inserted value. -/
theorem lookupField_objInsert_self (fields : List (String × Json))
    (key : String) (v : Json) :
    lookupField (objInsert fields key v) key = some v := by
  induction fields with
  | nil => simp [objInsert, lookupField]
  | cons p rest ih =>
      obtain ⟨k, w⟩ := p
      by_cases hk : k = key <;> simp [objInsert, lookupField, hk, ih]

/-- Looking up any other key is unaffected by the insertion. -/
theorem lookupField_objInsert_ne (fields : List (String × Json))
    (key : String) (v : Json) (k2 : String) (h : k2 ≠ key) :
    lookupField (objInsert fields key v) k2 = lookupField fields k2 := by
  induction fields with
  | nil => simp [objInsert, lookupField, Ne.symm h]
  | cons p rest ih =>
      obtain ⟨k, w⟩ := p
      by_cases hk : k = key
      · subst hk
        simp [objInsert, lookupField, Ne.symm h]
      · by_cases hk2 : k = k2 <;> simp [objInsert, lookupField, hk, hk2, h, ih]

/-! ## Claim theorems -/

/-- Claim C2: in both `create_job` and `reattempt_job`, on every Queue Store
commit failure (any error kind) no deletion of the staged record is performed:
the trace contains no staging-delete event. -/
theorem commit_failure_retains_staged_record
    (q : String) (req : CreateRequest) (ts : Int)
    (w1 : CreateJobWorld) (w2 : ReattemptWorld) (e1 e2 : OcyError)
    (h1 : w1.commit = .error e1) (h2 : w2.commit = .error e2) :
    (create_job q req w1).fst.any Event.isStageDelete = false ∧
    (reattempt_job q ts w2).fst.any Event.isStageDelete = false := by
  rcases w1 with ⟨p1, sw, cm, sg, sd⟩
  rcases w2 with ⟨p2, gj, cm2, sd2⟩
  simp only at h1 h2
  subst h1; subst h2
  cases p1 <;> rcases sw with m | ⟨l, t⟩ <;> cases e1 <;>
    cases p2 <;> cases gj <;>
    simp [create_job, reattempt_job, Event.isStageDelete]

/-- Claim C2 witness at a concrete world: commit fails with an internal error
in both handlers, and neither trace deletes the staged record. -/
theorem commit_failure_retains_staged_record_witness :
    (create_job "demo" ⟨some (Json.num 1)⟩
        ⟨.ok (), .ok ("loc", 7), .error (.Internal "down"), .error (.Internal "gone"), .ok ()⟩).fst.any
      Event.isStageDelete = false ∧
    (reattempt_job "demo" 7
        ⟨.ok (), .ok ⟨some (Json.num 1)⟩, .error (.Internal "down"), .ok ()⟩).fst.any
      Event.isStageDelete = false :=
  commit_failure_retains_staged_record "demo" ⟨some (Json.num 1)⟩ 7
    ⟨.ok (), .ok ("loc", 7), .error (.Internal "down"), .error (.Internal "gone"), .ok ()⟩
    ⟨.ok (), .ok ⟨some (Json.num 1)⟩, .error (.Internal "down"), .ok ()⟩
    (.Internal "down") (.Internal "down") rfl rfl

/-- Claim C4: after a successful commit in `create_job` the handler returns
201 Created with the job id and a `/job/` location reference regardless of the
staging-deletion result (which is universally quantified in the world, so a
deletion failure is not surfaced), and the deletion is still attempted. -/
theorem create_job_cleanup_best_effort
    (q : String) (req : CreateRequest) (loc : String) (ts : Int) (jid : Nat)
    (w : CreateJobWorld)
    (hp : w.pool = .ok ()) (hs : w.stageWrite = .ok (loc, ts))
    (hc : w.commit = .ok jid) :
    (create_job q req w).snd =
      .response (.created ("/job/" ++ toString jid)
        (some (Json.num (Int.ofNat jid)))) ∧
    (create_job q req w).fst.any Event.isStageDelete = true := by
  rcases w with ⟨p, sw, cm, sg, sd⟩
  simp only at hp hs hc
  subst hp; subst hs; subst hc
  simp [create_job, Event.isStageDelete]

/-- Claim C4 witness: the staging deletion fails, yet the handler returns 201
Created with the job id and location. -/
theorem create_job_cleanup_best_effort_witness :
    (create_job "demo" ⟨some (Json.num 1)⟩
        ⟨.ok (), .ok ("loc", 7), .ok 42, .ok ⟨some (Json.num 1)⟩, .error "unlink failed"⟩).snd =
      .response (.created ("/job/" ++ toString 42)
        (some (Json.num (Int.ofNat 42)))) ∧
    (create_job "demo" ⟨some (Json.num 1)⟩
        ⟨.ok (), .ok ("loc", 7), .ok 42, .ok ⟨some (Json.num 1)⟩, .error "unlink failed"⟩).fst.any
      Event.isStageDelete = true :=
  create_job_cleanup_best_effort "demo" ⟨some (Json.num 1)⟩ "loc" 7 42
    ⟨.ok (), .ok ("loc", 7), .ok 42, .ok ⟨some (Json.num 1)⟩, .error "unlink failed"⟩
    rfl rfl rfl

/-- Claim C5: in `reattempt_job`, a failed staged-record read surfaces that
error to the caller unchanged, and the trace contains no Queue Store commit
and no staged-record deletion. -/
theorem reattempt_staged_read_failure_surfaced
    (q : String) (ts : Int) (w : ReattemptWorld) (e : OcyError)
    (hp : w.pool = .ok ()) (hg : w.getJob = .error e) :
    (reattempt_job q ts w).snd = .response (.err e) ∧
    (reattempt_job q ts w).fst.any Event.isCommit = false ∧
    (reattempt_job q ts w).fst.any Event.isStageDelete = false := by
  rcases w with ⟨p, gj, cm, sd⟩
  simp only at hp hg
  subst hp; subst hg
  simp [reattempt_job, Event.isCommit, Event.isStageDelete]

/-- Claim C5 witness at a concrete world with a missing staged record. -/
theorem reattempt_staged_read_failure_surfaced_witness :
    (reattempt_job "demo" 7
        ⟨.ok (), .error (.Internal "no such staged job"), .ok 1, .ok ()⟩).snd =
      .response (.err (.Internal "no such staged job")) ∧
    (reattempt_job "demo" 7
        ⟨.ok (), .error (.Internal "no such staged job"), .ok 1, .ok ()⟩).fst.any
      Event.isCommit = false ∧
    (reattempt_job "demo" 7
        ⟨.ok (), .error (.Internal "no such staged job"), .ok 1, .ok ()⟩).fst.any
      Event.isStageDelete = false :=
  reattempt_staged_read_failure_surfaced "demo" 7
    ⟨.ok (), .error (.Internal "no such staged job"), .ok 1, .ok ()⟩
    (.Internal "no such staged job") rfl rfl

/-- Claim C6: `create_or_update` preserves the Created/Updated distinction:
first creation yields 201 Created with a `/queue/` Location, replacement
yields 204 with reason "Queue setting updated" and the same Location. -/
theorem create_or_update_created_updated_distinction
    (q : String) (w : UpsertWorld) (hp : w.pool = .ok ()) :
    (w.upsert = .ok true →
      (create_or_update q w).snd =
        .response (.created ("/queue/" ++ q) none)) ∧
    (w.upsert = .ok false →
      (create_or_update q w).snd =
        .response (.noContent (some "Queue setting updated")
          (some ("/queue/" ++ q)))) := by
  rcases w with ⟨p, u⟩
  simp only at hp
  subst hp
  constructor <;> intro h <;> simp only at h <;> subst h <;>
    simp [create_or_update]

/-- Claim C6 witness: both the Created and the Updated outcome at concrete
worlds. -/
theorem create_or_update_created_updated_distinction_witness :
    (create_or_update "demo" ⟨.ok (), .ok true⟩).snd =
      .response (.created ("/queue/" ++ "demo") none) ∧
    (create_or_update "demo" ⟨.ok (), .ok false⟩).snd =
      .response (.noContent (some "Queue setting updated")
        (some ("/queue/" ++ "demo"))) :=
  ⟨(create_or_update_created_updated_distinction "demo" ⟨.ok (), .ok true⟩ rfl).1 rfl,
   (create_or_update_created_updated_distinction "demo" ⟨.ok (), .ok false⟩ rfl).2 rfl⟩

/-- Claim C10: in both `create_job` and `reattempt_job` the pool handle is
acquired before any Job Staging Store access: on pool failure the handler
returns the connection error with an empty trace, so no staging write and no
staging read happened. -/
theorem pool_failure_precedes_staging_access
    (q : String) (req : CreateRequest) (ts : Int) (msg1 msg2 : String)
    (w1 : CreateJobWorld) (w2 : ReattemptWorld)
    (h1 : w1.pool = .error msg1) (h2 : w2.pool = .error msg2) :
    create_job q req w1 = ([], .response (.err (.RedisConnection msg1))) ∧
    reattempt_job q ts w2 = ([], .response (.err (.RedisConnection msg2))) ∧
    (create_job q req w1).fst.any Event.isStageWrite = false ∧
    (reattempt_job q ts w2).fst.any Event.isStageRead = false := by
  rcases w1 with ⟨p1, sw, cm, sg, sd⟩
  rcases w2 with ⟨p2, gj, cm2, sd2⟩
  simp only at h1 h2
  subst h1; subst h2
  simp [create_job, reattempt_job]

/-- Claim C10 witness at concrete pool failures. -/
theorem pool_failure_precedes_staging_access_witness :
    create_job "demo" ⟨some (Json.num 1)⟩
        ⟨.error "pool exhausted", .ok ("loc", 7), .ok 1, .ok ⟨none⟩, .ok ()⟩ =
      ([], .response (.err (.RedisConnection "pool exhausted"))) ∧
    reattempt_job "demo" 7
        ⟨.error "pool exhausted", .ok ⟨none⟩, .ok 1, .ok ()⟩ =
      ([], .response (.err (.RedisConnection "pool exhausted"))) ∧
    (create_job "demo" ⟨some (Json.num 1)⟩
        ⟨.error "pool exhausted", .ok ("loc", 7), .ok 1, .ok ⟨none⟩, .ok ()⟩).fst.any
      Event.isStageWrite = false ∧
    (reattempt_job "demo" 7
        ⟨.error "pool exhausted", .ok ⟨none⟩, .ok 1, .ok ()⟩).fst.any
      Event.isStageRead = false :=
  pool_failure_precedes_staging_access "demo" ⟨some (Json.num 1)⟩ 7
    "pool exhausted" "pool exhausted"
    ⟨.error "pool exhausted", .ok ("loc", 7), .ok 1, .ok ⟨none⟩, .ok ()⟩
    ⟨.error "pool exhausted", .ok ⟨none⟩, .ok 1, .ok ()⟩ rfl rfl

/-- A concrete `create_job` world whose staging write fails: the pool handle
was acquired, and every later call would have succeeded. -/
def stageFailWorld : CreateJobWorld :=
  ⟨.ok (), .error "disk full", .ok 1, .ok ⟨none⟩, .ok ()⟩

/-- Claim C1 counterexample: when the staging write fails, `create_job` does
not fail with a staging error surfaced to the caller — it panics (the source
calls `.unwrap()` on the `file::write_job` result), producing no error
response at all. -/
theorem create_job_stage_failure_not_surfaced_counterexample :
    (create_job "demo" ⟨some (Json.num 1)⟩ stageFailWorld).snd =
      HandlerOutcome.panicked ∧
    HandlerOutcome.isErrorResponse
      (create_job "demo" ⟨some (Json.num 1)⟩ stageFailWorld).snd = false :=
  ⟨rfl, rfl⟩

/-- Claim C1 (amended): in `create_job` the staging write strictly precedes
any Queue Store commit in every world, and when the staging write fails the
handler panics before any Queue Store interaction — the submission fails, but
by a panic rather than by a staging error response. -/
theorem create_job_stage_ordering_and_stage_failure_panics
    (q : String) (req : CreateRequest) (w : CreateJobWorld) :
    commitPrecededByStage false (create_job q req w).fst = true ∧
    (w.pool = .ok () → ∀ msg, w.stageWrite = .error msg →
      (create_job q req w).snd = HandlerOutcome.panicked ∧
      (create_job q req w).fst.any Event.isCommit = false) := by
  rcases w with ⟨p, sw, cm, sg, sd⟩
  cases p <;> rcases sw with m | ⟨l, t⟩ <;> rcases cm with e | jid <;>
    first
    | (cases e <;>
        simp [create_job, commitPrecededByStage, Event.isCommit,
          Event.isStageWrite])
    | simp [create_job, commitPrecededByStage, Event.isCommit,
        Event.isStageWrite]

/-- Claim C1 witness: at the concrete stage-failure world the handler panics
with no commit attempted. -/
theorem create_job_stage_ordering_witness :
    (create_job "demo" ⟨some (Json.num 1)⟩ stageFailWorld).snd =
      HandlerOutcome.panicked ∧
    (create_job "demo" ⟨some (Json.num 1)⟩ stageFailWorld).fst.any
      Event.isCommit = false :=
  (create_job_stage_ordering_and_stage_failure_panics "demo"
    ⟨some (Json.num 1)⟩ stageFailWorld).2 rfl "disk full" rfl

/-- Claim C3: in `reattempt_job` with a readable staged record, exactly one
payload is committed, namely the staged payload run through `augmentInput`;
when the staged input is a JSON object the committed input is that object with
the field `attempted_on` bound to the staging timestamp from the request path
and every other field unchanged; when the input is absent or not an object the
payload is committed unmodified. -/
theorem reattempt_commits_augmented_payload
    (q : String) (ts : Int) (w : ReattemptWorld) (req0 : CreateRequest)
    (hp : w.pool = .ok ()) (hg : w.getJob = .ok req0) :
    committedPayloads (reattempt_job q ts w).fst = [augmentInput ts req0] ∧
    (∀ fields, req0.input = some (Json.obj fields) →
      (augmentInput ts req0).input =
        some (Json.obj (objInsert fields attemptedOnKey (Json.num ts))) ∧
      lookupField (objInsert fields attemptedOnKey (Json.num ts))
        attemptedOnKey = some (Json.num ts) ∧
      ∀ k2, k2 ≠ attemptedOnKey →
        lookupField (objInsert fields attemptedOnKey (Json.num ts)) k2 =
          lookupField fields k2) ∧
    (inputIsObject req0.input = false → augmentInput ts req0 = req0) := by
  rcases w with ⟨p, gj, cm, sd⟩
  simp only at hp hg
  subst hp; subst hg
  refine ⟨?_, ?_, ?_⟩
  · cases cm <;> simp [reattempt_job, committedPayloads]
  · intro fields hf
    refine ⟨by simp [augmentInput, hf], lookupField_objInsert_self _ _ _,
      fun k2 hk2 => lookupField_objInsert_ne _ _ _ _ hk2⟩
  · intro hobj
    obtain ⟨i⟩ := req0
    simp only at hobj ⊢
    cases i with
    | none => simp [augmentInput]
    | some j => cases j <;> simp_all [augmentInput, inputIsObject]

/-- Claim C3 witness: a staged input object with one field `a` staged at
timestamp 7 is committed with `attempted_on` bound to 7 and `a` unchanged. -/
theorem reattempt_commits_augmented_payload_witness :
    committedPayloads
        (reattempt_job "demo" 7
          ⟨.ok (), .ok ⟨some (Json.obj [("a", Json.num 1)])⟩, .ok 1, .ok ()⟩).fst =
      [augmentInput 7 ⟨some (Json.obj [("a", Json.num 1)])⟩] ∧
    (augmentInput 7 ⟨some (Json.obj [("a", Json.num 1)])⟩).input =
      some (Json.obj (objInsert [("a", Json.num 1)] attemptedOnKey (Json.num 7))) ∧
    lookupField (objInsert [("a", Json.num 1)] attemptedOnKey (Json.num 7))
      attemptedOnKey = some (Json.num 7) ∧
    lookupField (objInsert [("a", Json.num 1)] attemptedOnKey (Json.num 7)) "a" =
      lookupField [("a", Json.num 1)] "a" := by
  have h := reattempt_commits_augmented_payload "demo" 7
    ⟨.ok (), .ok ⟨some (Json.obj [("a", Json.num 1)])⟩, .ok 1, .ok ()⟩
    ⟨some (Json.obj [("a", Json.num 1)])⟩ rfl rfl
  have h2 := h.2.1 [("a", Json.num 1)] rfl
  exact ⟨h.1, h2.1, h2.2.1, h2.2.2 "a" (by decide)⟩

/-- Claim C7: in `next_job` and `fetch_job`, when the Queue Store reports no
job the response is No Content, the trace sleeps for exactly the configured
delay when one is configured and non-zero, and contains no sleep when the
delay is absent or zero. -/
theorem empty_retrieval_delay_policy
    (q : String) (jid : Nat) (w : RetrieveWorld)
    (hp : w.pool = .ok ()) (hr : w.result = .ok none) :
    (next_job q w).snd = .response (.noContent none none) ∧
    (fetch_job q jid w).snd = .response (.noContent none none) ∧
    (∀ d, w.next_job_delay = some d → d ≠ 0 →
      (next_job q w).fst.filter Event.isSleep = [Event.sleep d] ∧
      (fetch_job q jid w).fst.filter Event.isSleep = [Event.sleep d]) ∧
    ((w.next_job_delay = none ∨ w.next_job_delay = some 0) →
      (next_job q w).fst.any Event.isSleep = false ∧
      (fetch_job q jid w).fst.any Event.isSleep = false) := by
  rcases w with ⟨p, r, d⟩
  simp only at hp hr
  subst hp; subst hr
  cases d with
  | none => simp [next_job, fetch_job, Event.isSleep]
  | some delay =>
      by_cases hd : delay = 0 <;>
        simp [next_job, fetch_job, Event.isSleep, hd]

/-- Claim C7 witness: with a 50ms configured delay and an empty queue, both
handlers respond No Content and sleep exactly once for 50ms. -/
theorem empty_retrieval_delay_policy_witness :
    (next_job "demo" ⟨.ok (), .ok none, some 50⟩).snd =
      .response (.noContent none none) ∧
    (next_job "demo" ⟨.ok (), .ok none, some 50⟩).fst.filter Event.isSleep =
      [Event.sleep 50] ∧
    (fetch_job "demo" 1 ⟨.ok (), .ok none, some 50⟩).fst.filter Event.isSleep =
      [Event.sleep 50] := by
  have h := empty_retrieval_delay_policy "demo" 1
    ⟨.ok (), .ok none, some 50⟩ rfl rfl
  have h3 := h.2.2.1 50 rfl (by decide)
  exact ⟨h.1, h3.1, h3.2⟩

/-- The world exercising the empty-retrieval delay: pool handle acquired,
store reports no job, a 50ms delay is configured. -/
def connHeldWorld : RetrieveWorld := ⟨.ok (), .ok none, some 50⟩

/-- Claim C8, evaluated at the failing input: with a configured 50ms delay and
no job available, both `next_job` and `fetch_job` sleep while the pooled
connection is still held — the connection-release event (the drop of `conn` at
scope exit) comes only after the sleep, so the suspension does hold the Queue
Store connection, contrary to the claim. -/
theorem retrieval_delay_holds_connection :
    sleepOnlyAfterRelease false (next_job "demo" connHeldWorld).fst = false ∧
    (next_job "demo" connHeldWorld).fst =
      [.poolAcquire, .storeCall "demo", .sleep 50, .connRelease] ∧
    sleepOnlyAfterRelease false (fetch_job "demo" 1 connHeldWorld).fst = false ∧
    (fetch_job "demo" 1 connHeldWorld).fst =
      [.poolAcquire, .storeFetch "demo" 1, .sleep 50, .connRelease] :=
  ⟨rfl, rfl, rfl, rfl⟩

/-- Claim C9: the pure-read handlers `settings`, `size` and `job_ids` return
every Queue Store error with its kind intact (the very error value is handed
to the transport layer), and the `NoSuchQueue` kind is additionally surfaced
distinctly: it is the one error kind not logged as an error. -/
theorem read_handlers_preserve_error_kind
    (q : String) (w1 : ReadWorld Json) (w2 : ReadWorld Nat)
    (w3 : ReadWorld (List Nat)) (e1 e2 e3 : OcyError)
    (hp1 : w1.pool = .ok ()) (hp2 : w2.pool = .ok ())
    (hp3 : w3.pool = .ok ())
    (h1 : w1.read = .error e1) (h2 : w2.read = .error e2)
    (h3 : w3.read = .error e3) :
    ((settings q w1).snd = .response (.err e1) ∧
      (settings q w1).fst.any Event.isLogError = !e1.isNoSuchQueue) ∧
    ((size q w2).snd = .response (.err e2) ∧
      (size q w2).fst.any Event.isLogError = !e2.isNoSuchQueue) ∧
    ((job_ids q w3).snd = .response (.err e3) ∧
      (job_ids q w3).fst.any Event.isLogError = !e3.isNoSuchQueue) := by
  rcases w1 with ⟨p1, r1⟩; rcases w2 with ⟨p2, r2⟩; rcases w3 with ⟨p3, r3⟩
  simp only at hp1 hp2 hp3 h1 h2 h3
  subst hp1; subst hp2; subst hp3; subst h1; subst h2; subst h3
  refine ⟨?_, ?_, ?_⟩ <;>
    [cases e1; cases e2; cases e3] <;>
    simp [settings, size, job_ids, Event.isLogError, OcyError.isNoSuchQueue]

/-- Claim C9 witness: `settings` surfaces `NoSuchQueue` unlogged, `size` and
`job_ids` surface an internal error logged, all with their kind intact. -/
theorem read_handlers_preserve_error_kind_witness :
    ((settings "demo" ⟨.ok (), .error (.NoSuchQueue "demo")⟩).snd =
        .response (.err (.NoSuchQueue "demo")) ∧
      (settings "demo" ⟨.ok (), .error (.NoSuchQueue "demo")⟩).fst.any
        Event.isLogError = !(OcyError.NoSuchQueue "demo").isNoSuchQueue) ∧
    ((size "demo" ⟨.ok (), .error (.Internal "down")⟩).snd =
        .response (.err (.Internal "down")) ∧
      (size "demo" ⟨.ok (), .error (.Internal "down")⟩).fst.any
        Event.isLogError = !(OcyError.Internal "down").isNoSuchQueue) ∧
    ((job_ids "demo" ⟨.ok (), .error (.Internal "down")⟩).snd =
        .response (.err (.Internal "down")) ∧
      (job_ids "demo" ⟨.ok (), .error (.Internal "down")⟩).fst.any
        Event.isLogError = !(OcyError.Internal "down").isNoSuchQueue) :=
  read_handlers_preserve_error_kind "demo"
    ⟨.ok (), .error (.NoSuchQueue "demo")⟩
    ⟨.ok (), .error (.Internal "down")⟩
    ⟨.ok (), .error (.Internal "down")⟩
    (.NoSuchQueue "demo") (.Internal "down") (.Internal "down")
    rfl rfl rfl rfl rfl rfl
